import Mathlib

set_option maxRecDepth 8000

/-!
Shallow embedding of the multi-chain wallet front-end (token data model,
per-chain balance fetchers, the aggregation merge, and the transfer
dispatcher with its three chain-specific transfer routines).

External SDK and wallet-extension calls are modelled by oracle
environments: each awaited call is a field of the environment holding the
outcome the external world would have produced, as an `Except JsErr`
value (`.error` for a rejected promise or thrown error).  Functions
return their result together with a trace of observable effects (user
notifications, SDK invocations, console error logs).  Control flow,
string literals and branch structure are transcribed from the source
files; decimal parsing and formatting of the JavaScript libraries are
implemented as exact executable functions over Nat and Rat.
-/

/-- Token record, from src/types/wallet.ts (interface Token). -/
structure Token where
  id : String
  symbol : String
  name : String
  balance : String
  decimals : Nat
  address : String
  chain : String
  logoURI : String
  priceUSD : String
deriving Repr, DecidableEq

/-- TransferParams record, from src/types/wallet.ts (interface TransferParams). -/
structure TransferParams where
  token : Token
  toAddress : String
  amount : String
deriving Repr, DecidableEq

/-- A JavaScript error value as observed by the catch blocks: an optional
message (absent when the thrown value is not an Error instance) and an
optional numeric code (used by the MetaMask network-switch handler). -/
structure JsErr where
  message : Option String
  code : Option Int
deriving Repr, DecidableEq

/-- A toast notification: title, description, and whether the variant is
destructive. -/
structure Toast where
  title : String
  description : String
  destructive : Bool
deriving Repr, DecidableEq

/-- Observable effects of a routine: a toast notification, an invocation
of a chain SDK or wallet-extension operation (with the stringified
arguments that the model tracks), or a console error log. -/
inductive Effect where
  | toast (t : Toast)
  | sdkCall (name : String) (args : List String)
  | logError (msg : String)
deriving Repr, DecidableEq

/-- Boolean test for the `.ok` constructor of `Except`. -/
def exceptOk {ε α : Type} : Except ε α → Bool
  | .ok _ => true
  | .error _ => false

/-- Boolean test for the `.error` constructor of `Except`. -/
def exceptErr {ε α : Type} : Except ε α → Bool
  | .ok _ => false
  | .error _ => true

/-- Digit list to natural number (most significant first). -/
def digitsToNat (l : List Char) : Nat :=
  l.foldl (fun a c => a * 10 + (c.toNat - 48)) 0

/-- True when the list is a nonempty run of decimal digits. -/
def allDigits (l : List Char) : Bool :=
  !l.isEmpty && l.all Char.isDigit

/-- Left-pad a digit string with zeros to the given width. -/
def padDigits (s : String) (d : Nat) : String :=
  String.mk (List.replicate (d - s.length) '0') ++ s

/-- Drop trailing zero characters. -/
def dropTrailingZeros (l : List Char) : List Char :=
  (l.reverse.dropWhile (fun c => c = '0')).reverse

/-- Exact decimal rendering of n / 10 ^ d in JavaScript Number.toString
style: no decimal point when the fraction is zero, trailing zeros of the
fraction trimmed.  (Matches the JS float printing for the values the UI
handles, which are exactly representable.) -/
def formatScaled (n d : Nat) : String :=
  let ip := n / 10 ^ d
  let fp := n % 10 ^ d
  if fp = 0 then toString ip
  else toString ip ++ "." ++ String.mk (dropTrailingZeros (padDigits (toString fp) d).toList)

/-- ethers.formatUnits / formatEther: exact decimal string of
n / 10 ^ d, always carrying at least one fractional digit
(formatEther 0 is the string 0.0). -/
def ethersFormatUnits (n d : Nat) : String :=
  let ip := n / 10 ^ d
  let fp := n % 10 ^ d
  let fracStr :=
    if fp = 0 then "0"
    else String.mk (dropTrailingZeros (padDigits (toString fp) d).toList)
  toString ip ++ "." ++ fracStr

/-- JavaScript parseInt on the base-10 digit strings supplied by the
chain APIs: parse the leading digit run, NaN (none) when there is
none. -/
def jsParseInt (s : String) : Option Nat :=
  let digits := s.toList.takeWhile Char.isDigit
  if digits.isEmpty then none
  else some (digitsToNat digits)

/-- Split a character list at the dot separators (the structural
counterpart of splitting a string on the decimal point). -/
def splitOnDot : List Char → List (List Char)
  | [] => [[]]
  | '.' :: rest => [] :: splitOnDot rest
  | c :: rest =>
    match splitOnDot rest with
    | [] => [[c]]
    | h :: t => (c :: h) :: t

/-- True when the first list is a prefix of the second (structural
counterpart of String.startsWith). -/
def startsWithChars : List Char → List Char → Bool
  | [], _ => true
  | _ :: _, [] => false
  | p :: ps, c :: cs => p = c && startsWithChars ps cs

/-- True when the list contains two adjacent colons (the includes
double-colon test of the source). -/
def containsColons : List Char → Bool
  | [] => false
  | ':' :: ':' :: _ => true
  | _ :: rest => containsColons rest

/-- JavaScript parseFloat on a decimal string, kept in exact form:
some (neg, mant, scale) denotes the value (-1)^neg * mant / 10 ^ scale;
optional sign, leading digit run, optional fraction; trailing garbage
ignored; NaN (none) when no digits are found.  Exponent notation and
leading whitespace are not produced by this UI and are not modelled. -/
def jsParseDec (s : String) : Option (Bool × Nat × Nat) :=
  let (neg, body) :=
    match s.toList with
    | '-' :: r => (true, r)
    | '+' :: r => (false, r)
    | l => (false, l)
  let ip := body.takeWhile Char.isDigit
  let rest := body.dropWhile Char.isDigit
  let fp :=
    match rest with
    | '.' :: r => r.takeWhile Char.isDigit
    | _ => []
  if ip.isEmpty && fp.isEmpty then none
  else some (neg, digitsToNat ip * 10 ^ fp.length + digitsToNat fp, fp.length)

/-- ethers.parseUnits: strict decimal string (optional sign, digits,
optional fraction of at most d digits) scaled to an integer in the
smallest unit; anything else throws. -/
def jsParseUnits (s : String) (d : Nat) : Except JsErr Int :=
  let (neg, body) :=
    match s.toList with
    | '-' :: r => (true, r)
    | l => (false, l)
  match splitOnDot body with
  | [i] =>
    if allDigits i then
      let v : Int := Int.ofNat (digitsToNat i * 10 ^ d)
      .ok (if neg then -v else v)
    else .error ⟨some "invalid decimal value", none⟩
  | [i, f] =>
    if allDigits i && allDigits f && decide (f.length ≤ d) then
      let v : Int := Int.ofNat (digitsToNat i * 10 ^ d + digitsToNat f * 10 ^ (d - f.length))
      .ok (if neg then -v else v)
    else .error ⟨some "invalid decimal value", none⟩
  | _ => .error ⟨some "invalid decimal value", none⟩

/-- BigNumber(amount).multipliedBy(10 ^ decimals).toFixed(0): NaN string
when the amount does not parse, otherwise the scaled value rounded
half-up to an integer string, computed as
floor((q + 1/2)) = fdiv (2 * m * 10 ^ d + 10 ^ scale) (2 * 10 ^ scale)
on the exact parsed value q = m * 10 ^ d / 10 ^ scale.  (BigNumber
rounds an exact negative half away from zero where this floor form
rounds it up; the UI only produces nonnegative amounts, where the two
agree.) -/
def bigNumToFixed0 (s : String) (d : Nat) : String :=
  match jsParseDec s with
  | none => "NaN"
  | some (neg, mant, scale) =>
    let m : Int := if neg then -(mant : Int) else (mant : Int)
    toString (Int.fdiv (2 * m * 10 ^ d + 10 ^ scale) (2 * 10 ^ scale))

/-- toAddress.slice(0, 6) ++ "..." ++ toAddress.slice(-4), as used in the
success-toast descriptions. -/
def shortAddr (s : String) : String :=
  s.take 6 ++ "..." ++ s.drop (s.length - 4)

/-- error instanceof Error ? error.message : "Unknown error". -/
def errMessage (e : JsErr) : String :=
  e.message.getD "Unknown error"

/-- Aggregation merge from src/pages (part_000) handleSetTokenBalances:
drop the previous entries whose chain tag equals the updating chain and
append the newly reported tokens. -/
def handleSetTokenBalances (prev tokens : List Token) (chain : String) : List Token :=
  prev.filter (fun token => token.chain ≠ chain) ++ tokens

/-- A sample Solana token as the SVM connector reports it, used for
concrete evaluations. -/
def sampleSvmToken : Token :=
  ⟨"SOL", "SOL", "Solana", "2.5", 9, "native", "svm", "", "0"⟩

/-- Oracle for the EVM connector balance fetch
(src/components/EVMWalletConnector.tsx fetchTokenBalances): the
eth_chainId extension request and the JsonRpcProvider getBalance call
(balance in wei). -/
structure EvmFetchEnv where
  ethChainId : Except JsErr String
  getBalance : Except JsErr Nat

/-- The synthetic error-marker token the EVM fetcher substitutes on a
total fetch failure.  Note the chain tag is the literal string ethereum,
not evm, exactly as in the source. -/
def evmFetchErrorToken : Token :=
  ⟨"error", "ERR", "Error fetching tokens", "0", 18, "", "ethereum", "", "0"⟩

/-- EVM connector fetchTokenBalances: guarded by the in-flight flag
(dropped call delivers nothing, modelled as none); reads the chain id,
fetches the native balance from the selected RPC endpoint, and delivers
the single native token; on any failure delivers the single
error-marker token.  The first component is the token list passed to
setTokenBalances (none when setTokenBalances is never called). -/
def evmFetchTokenBalances (inFlight : Bool) (env : EvmFetchEnv) :
    Option (List Token) × List Effect :=
  if inFlight then (none, [])
  else
    match env.ethChainId with
    | .error _ => (some [evmFetchErrorToken], [.logError "Error fetching EVM token balances"])
    | .ok chainId =>
      match env.getBalance with
      | .error _ => (some [evmFetchErrorToken], [.logError "Error fetching EVM token balances"])
      | .ok wei =>
        (some [⟨"native",
               if chainId = "0xaef3" then "CELO" else "ETH",
               if chainId = "0xaef3" then "Celo" else "Ethereum",
               ethersFormatUnits wei 18, 18, "native", "evm", "", "0"⟩], [])

/-- Oracle for the Solana connector balance fetch (part_001
fetchTokenBalances): the PublicKey construction from the address string
and the connection getBalance call (balance in lamports). -/
structure SvmFetchEnv where
  parseKey : Except JsErr Unit
  getBalance : Except JsErr Nat

/-- The synthetic error-marker token of the Solana fetcher. -/
def svmFetchErrorToken : Token :=
  ⟨"error", "ERR", "Error fetching tokens", "0", 9, "", "svm", "", "0"⟩

/-- Solana connector fetchTokenBalances: in-flight guard, then fetch the
native balance and deliver the single SOL token (balance divided by
LAMPORTS_PER_SOL and printed as a JS number); on failure deliver the
single error-marker token. -/
def svmFetchTokenBalances (inFlight : Bool) (env : SvmFetchEnv) :
    Option (List Token) × List Effect :=
  if inFlight then (none, [])
  else
    match env.parseKey with
    | .error _ => (some [svmFetchErrorToken], [.logError "Error fetching Solana token balances"])
    | .ok _ =>
      match env.getBalance with
      | .error _ => (some [svmFetchErrorToken], [.logError "Error fetching Solana token balances"])
      | .ok bal =>
        (some [⟨"SOL", "SOL", "Solana", formatScaled bal 9, 9, "native", "svm", "", "0"⟩], [])

/-- An Aptos account resource as the fetcher consumes it: its type
string and, for coin stores, the data.coin.value balance string. -/
structure Resource where
  type : String
  coinValue : String
deriving Repr, DecidableEq

/-- The on-chain CoinInfo metadata fields the fetcher reads; each may be
absent (the source defaults each one with nullish coalescing). -/
structure CoinInfo where
  symbol : Option String
  name : Option String
  decimals : Option Nat
deriving Repr, DecidableEq

/-- Oracle for the Aptos connector balance fetch (part_002
fetchTokenBalances): the getAccountResources enumeration and the
per-coin-type CoinInfo metadata lookup, keyed by the coin type tag. -/
structure MvmFetchEnv where
  getAccountResources : Except JsErr (List Resource)
  getCoinInfo : String → Except JsErr CoinInfo

/-- The regex match <(.+)> on a resource type string: the characters
after the first open angle bracket and before the last close angle
bracket, empty when there is no such nonempty span (the source falls
back to the empty string when the regex does not match). -/
def extractTypeTag (s : String) : String :=
  match s.toList.dropWhile (fun c => c ≠ '<') with
  | '<' :: rest =>
    match rest.reverse.dropWhile (fun c => c ≠ '>') with
    | '>' :: mid => String.mk mid.reverse
    | _ => ""
  | _ => ""

/-- The coin-store resources: those whose type starts with the literal
CoinStore prefix string. -/
def coinStoresOf (rs : List Resource) : List Resource :=
  rs.filter (fun r => startsWithChars "0x1::coin::CoinStore<".toList r.type.toList)

/-- Build one token from a coin-store resource: coin type tag from the
resource type, balance from parseInt of the store value scaled down by
the decimals, and symbol/name/decimals from the metadata lookup with the
UNKNOWN / Unknown Token / 8 fallbacks when the lookup throws or a field
is absent. -/
def mvmTokenOf (env : MvmFetchEnv) (r : Resource) : Token :=
  let tokenType := extractTypeTag r.type
  let (symbol, name, decimals) :=
    match env.getCoinInfo tokenType with
    | .error _ => ("UNKNOWN", "Unknown Token", 8)
    | .ok ci => (ci.symbol.getD "UNKNOWN", ci.name.getD "Unknown Token", ci.decimals.getD 8)
  let balance :=
    match jsParseInt r.coinValue with
    | none => "NaN"
    | some v => formatScaled v decimals
  ⟨tokenType, symbol, name, balance, decimals, tokenType, "mvm", "", "0"⟩

/-- The synthetic error-marker token of the Aptos fetcher. -/
def mvmFetchErrorToken : Token :=
  ⟨"error", "ERR", "Error fetching tokens", "0", 8, "", "mvm", "", "0"⟩

/-- Aptos connector fetchTokenBalances: in-flight guard, enumerate the
account resources, keep the coin stores, build one token per store (the
per-token metadata failure is caught inside the mapping), and deliver
the list; when the enumeration itself fails deliver the single
error-marker token. -/
def mvmFetchTokenBalances (inFlight : Bool) (env : MvmFetchEnv) :
    Option (List Token) × List Effect :=
  if inFlight then (none, [])
  else
    match env.getAccountResources with
    | .error _ => (some [mvmFetchErrorToken], [.logError "Error fetching token balances"])
    | .ok rs => (some ((coinStoresOf rs).map (mvmTokenOf env)), [])

/-- Oracle for getAllMVMTokenBalances (src/utils/wallet.ts): the
getAccount existence check and the getAccountResources call. -/
structure MvmAllEnv where
  getAccount : Except JsErr Unit
  getAccountResources : Except JsErr (List Resource)

/-- The account-not-found toast of getAllMVMTokenBalances. -/
def accountNotFoundToast : Toast :=
  ⟨"Account Not Found",
   "This Aptos address does not exist on chain. Please fund it with a small amount of APT to activate.",
   true⟩

/-- getAllMVMTokenBalances from src/utils/wallet.ts: toast and return the
empty list when the account lookup throws; return the empty list when
the resource fetch throws; on the success path the fetched resources are
bound and discarded and the function falls off its end, returning
undefined (modelled as none). -/
def getAllMVMTokenBalances (env : MvmAllEnv) : Option (List Token) × List Effect :=
  match env.getAccount with
  | .error _ => (some [], [.toast accountNotFoundToast])
  | .ok _ =>
    match env.getAccountResources with
    | .error _ => (some [], [.logError "Error fetching MVM token balances"])
    | .ok _ => (none, [])

/-- A result paired with the trace of effects produced while computing
it; `.error` marks an exception that has not (yet) been caught. -/
abbrev Res (α : Type) : Type := Except JsErr α × List Effect

/-- Pure result, no effects. -/
def pureRes {α : Type} (a : α) : Res α := (.ok a, [])

/-- Sequencing: an uncaught error short-circuits; effects accumulate in
program order. -/
def andThen {α β : Type} (x : Res α) (k : α → Res β) : Res β :=
  match x with
  | (.error e, fx) => (.error e, fx)
  | (.ok a, fx) => ((k a).1, fx ++ (k a).2)

/-- An awaited SDK or extension call: records the invocation and yields
the outcome the environment holds for it. -/
def sdk {α : Type} (name : String) (args : List String) (r : Except JsErr α) : Res α :=
  (r, [.sdkCall name args])

/-- A toast call. -/
def notify (t : Toast) : Res Unit := (.ok (), [.toast t])

/-- A computation that may throw but is not an SDK invocation (library
parsing such as ethers.parseUnits). -/
def raw {α : Type} (r : Except JsErr α) : Res α := (r, [])

/-- The catch-all failure toast of the three transfer routines. -/
def failToast (e : JsErr) : Toast :=
  ⟨"Transfer Failed", errMessage e, true⟩

/-- Oracle for transferERC20: presence of the injected provider and the
outcomes of the extension requests and ethers calls, in program
order. -/
structure EvmTransferEnv where
  hasEthereum : Bool
  switchChain1 : Except JsErr Unit
  addChain : Except JsErr Unit
  switchChain2 : Except JsErr Unit
  getSigner : Except JsErr Unit
  erc20Decimals : Except JsErr Nat
  erc20Transfer : Except JsErr Unit
  erc20Wait : Except JsErr Unit
  sendTransaction : Except JsErr Unit
  sendWait : Except JsErr Unit

/-- The inner try/catch of transferERC20 around the network switch:
returns true to proceed with the transfer, false when the routine
already returned failure (toast emitted); a first switch error with
code 4902 is recovered by adding the chain and switching again. -/
def ensureCeloNetwork (env : EvmTransferEnv) : Res Bool :=
  match env.switchChain1 with
  | .ok _ => (.ok true, [.sdkCall "wallet_switchEthereumChain" []])
  | .error e =>
    if e.code = some 4902 then
      match env.addChain with
      | .error _ =>
        (.ok false, [.sdkCall "wallet_switchEthereumChain" [], .sdkCall "wallet_addEthereumChain" [],
          .toast ⟨"Network Error", "Could not switch to Celo Alfajores network", true⟩])
      | .ok _ =>
        match env.switchChain2 with
        | .error _ =>
          (.ok false, [.sdkCall "wallet_switchEthereumChain" [], .sdkCall "wallet_addEthereumChain" [],
            .sdkCall "wallet_switchEthereumChain" [],
            .toast ⟨"Network Error", "Could not switch to Celo Alfajores network", true⟩])
        | .ok _ =>
          (.ok true, [.sdkCall "wallet_switchEthereumChain" [], .sdkCall "wallet_addEthereumChain" [],
            .sdkCall "wallet_switchEthereumChain" []])
    else
      (.ok false, [.sdkCall "wallet_switchEthereumChain" [],
        .toast ⟨"Network Error", "Please switch to Celo Alfajores manually.", true⟩])

/-- The try block of transferERC20 (src/utils/wallet.ts): provider
check, network switch, then an ERC-20 transfer call when the token
address is nonempty and not the literal native, otherwise a native
value transfer; one confirmation awaited; success toast and true. -/
def transferERC20Try (env : EvmTransferEnv) (tokenAddress toAddress amount : String) : Res Bool :=
  if env.hasEthereum = false then
    (.ok false, [.toast ⟨"Error", "No Ethereum wallet found. Please install MetaMask.", true⟩])
  else
    andThen (ensureCeloNetwork env) (fun proceed =>
    if proceed = false then pureRes false
    else
      andThen (sdk "getSigner" [] env.getSigner) (fun _ =>
      if tokenAddress ≠ "" ∧ tokenAddress ≠ "native" then
        andThen (sdk "erc20.decimals" [] env.erc20Decimals) (fun decimals =>
        andThen (raw (jsParseUnits amount decimals)) (fun amountInWei =>
        andThen (sdk "erc20.transfer" [toAddress, toString amountInWei] env.erc20Transfer) (fun _ =>
        andThen (sdk "tx.wait" [] env.erc20Wait) (fun _ =>
        andThen (notify ⟨"Transfer Successful", "Transferred " ++ amount ++ " to " ++ shortAddr toAddress, false⟩) (fun _ =>
        pureRes true)))))
      else
        andThen (raw (jsParseUnits amount 18)) (fun amountInWei =>
        andThen (sdk "sendTransaction" [toAddress, toString amountInWei] env.sendTransaction) (fun _ =>
        andThen (sdk "tx.wait" [] env.sendWait) (fun _ =>
        andThen (notify ⟨"Transfer Successful", "Transferred " ++ amount ++ " to " ++ shortAddr toAddress, false⟩) (fun _ =>
        pureRes true))))))

/-- transferERC20: the try block wrapped in the catch that toasts the
failure and returns false. -/
def transferERC20 (env : EvmTransferEnv) (tokenAddress toAddress amount : String) : Res Bool :=
  match transferERC20Try env tokenAddress toAddress amount with
  | (.error e, fx) => (.ok false, fx ++ [.toast (failToast e)])
  | (.ok b, fx) => (.ok b, fx)

/-- LAMPORTS_PER_SOL. -/
def LAMPORTS_PER_SOL : Nat := 1000000000

/-- Oracle for transferSOL: provider presence and connection state, the
balance query in lamports, the PublicKey parse of the destination, and
the sign/send/confirm calls. -/
structure SolTransferEnv where
  hasSolana : Bool
  solanaConnected : Bool
  solanaConnect : Except JsErr Unit
  getBalance : Except JsErr Nat
  parsePubkey : Except JsErr Unit
  getLatestBlockhash : Except JsErr Unit
  signTransaction : Except JsErr Unit
  sendRawTransaction : Except JsErr String
  confirmTransaction : Except JsErr Unit

/-- The try block of transferSOL (src/utils/wallet.ts): provider check,
connect when needed, local balance-sufficiency check
currentBalance < parseFloat(amount) * LAMPORTS_PER_SOL (a NaN
comparison is false, as in JS; the exact comparison is stated with the
denominator of the parsed amount cleared, multiplying both sides by the
positive 10 ^ scale), then construct, sign, send and confirm the
transfer. -/
def transferSOLTry (env : SolTransferEnv) (toAddress amount : String) : Res Bool :=
  if env.hasSolana = false then
    (.ok false, [.toast ⟨"Error", "No Solana wallet found. Please install Phantom.", true⟩])
  else
    andThen (if env.solanaConnected = false then sdk "solana.connect" [] env.solanaConnect else pureRes ()) (fun _ =>
    andThen (sdk "getBalance" [] env.getBalance) (fun currentBalance =>
    let insufficient :=
      match jsParseDec amount with
      | none => false
      | some (neg, mant, scale) =>
        decide ((currentBalance : Int) * 10 ^ scale <
          (if neg then -(mant : Int) else (mant : Int)) * (LAMPORTS_PER_SOL : Int))
    if insufficient then
      (.ok false, [.toast ⟨"Insufficient Balance", "You need at least " ++ amount ++ " SOL.", true⟩])
    else
      andThen (raw env.parsePubkey) (fun _ =>
      andThen (sdk "SystemProgram.transfer" [toAddress] (.ok ())) (fun _ =>
      andThen (sdk "getLatestBlockhash" [] env.getLatestBlockhash) (fun _ =>
      andThen (sdk "signTransaction" [] env.signTransaction) (fun _ =>
      andThen (sdk "sendRawTransaction" [] env.sendRawTransaction) (fun _ =>
      andThen (sdk "confirmTransaction" [] env.confirmTransaction) (fun _ =>
      andThen (notify ⟨"Transfer Successful", "Transferred " ++ amount ++ " SOL to " ++ shortAddr toAddress, false⟩) (fun _ =>
      pureRes true)))))))))

/-- transferSOL: the try block wrapped in the failure catch. -/
def transferSOL (env : SolTransferEnv) (toAddress amount : String) : Res Bool :=
  match transferSOLTry env toAddress amount with
  | (.error e, fx) => (.ok false, fx ++ [.toast (failToast e)])
  | (.ok b, fx) => (.ok b, fx)

/-- Oracle for transferMVMToken: Petra presence, the connection and
account queries, the ledger-info read, and the submit/wait calls. -/
structure MvmTransferEnv where
  hasPetra : Bool
  petraIsConnected : Except JsErr Bool
  petraConnect : Except JsErr Unit
  petraAccount : Except JsErr String
  getLedgerInfo : Except JsErr Unit
  signAndSubmit : Except JsErr String
  waitForTransaction : Except JsErr Unit

/-- The try block of transferMVMToken (src/utils/wallet.ts): wallet
checks, type-tag defaulting to the native coin when the token address is
falsy or carries no double-colon, BigNumber scaling of the amount, and
the submit/wait sequence; the payload arguments are recorded on the
submit invocation. -/
def transferMVMTokenTry (env : MvmTransferEnv) (token : Token) (toAddress amount : String) : Res Bool :=
  if env.hasPetra = false then
    (.ok false, [.toast ⟨"Error", "Petra wallet not installed.", true⟩])
  else
    andThen (sdk "petra.isConnected" [] env.petraIsConnected) (fun connected =>
    andThen (if connected = false then sdk "petra.connect" [] env.petraConnect else pureRes ()) (fun _ =>
    andThen (sdk "petra.account" [] env.petraAccount) (fun addr =>
    if addr = "" then
      (.ok false, [.toast ⟨"Error", "Could not get Petra wallet address.", true⟩])
    else
      let typeTag :=
        if token.address = "" ∨ containsColons token.address.toList = false then
          "0x1::aptos_coin::AptosCoin"
        else token.address
      let amountInSmallestUnit := bigNumToFixed0 amount token.decimals
      andThen (sdk "getLedgerInfo" [] env.getLedgerInfo) (fun _ =>
      andThen (sdk "signAndSubmitTransaction" [toAddress, amountInSmallestUnit, typeTag] env.signAndSubmit) (fun _ =>
      andThen (sdk "waitForTransaction" [] env.waitForTransaction) (fun _ =>
      andThen (notify ⟨"Transfer Successful", "Transferred " ++ amount ++ " " ++ token.symbol ++ " to " ++ shortAddr toAddress, false⟩) (fun _ =>
      pureRes true)))))))

/-- transferMVMToken: the try block wrapped in the failure catch. -/
def transferMVMToken (env : MvmTransferEnv) (token : Token) (toAddress amount : String) : Res Bool :=
  match transferMVMTokenTry env token toAddress amount with
  | (.error e, fx) => (.ok false, fx ++ [.toast (failToast e)])
  | (.ok b, fx) => (.ok b, fx)

/-- The three per-chain oracles the dispatcher can reach. -/
structure WalletEnv where
  evm : EvmTransferEnv
  sol : SolTransferEnv
  mvm : MvmTransferEnv

/-- transferTokens (src/utils/wallet.ts): dispatch on the token chain
tag; the evm case substitutes the literal native for a falsy token
address; an unknown tag toasts Unsupported chain and returns false. -/
def transferTokens (env : WalletEnv) (params : TransferParams) : Res Bool :=
  if params.token.chain = "evm" then
    transferERC20 env.evm
      (if params.token.address = "" then "native" else params.token.address)
      params.toAddress params.amount
  else if params.token.chain = "svm" then
    transferSOL env.sol params.toAddress params.amount
  else if params.token.chain = "mvm" then
    transferMVMToken env.mvm params.token params.toAddress params.amount
  else
    (.ok false, [.toast ⟨"Error", "Unsupported chain", true⟩])

/-- getEVMBalance (src/utils/wallet.ts): format the fetched wei balance,
catch any error and return the string 0. -/
def getEVMBalance (getBalance : Except JsErr Nat) : Except JsErr String × List Effect :=
  match getBalance with
  | .ok wei => (.ok (ethersFormatUnits wei 18), [])
  | .error _ => (.ok "0", [.logError "Error getting EVM balance"])

/-- Oracle for getERC20Balance: the balanceOf and decimals contract
calls. -/
structure Erc20BalEnv where
  balanceOf : Except JsErr Nat
  decimals : Except JsErr Nat

/-- getERC20Balance (src/utils/wallet.ts): format balanceOf by the token
decimals, catch any error and return the string 0. -/
def getERC20Balance (env : Erc20BalEnv) : Except JsErr String × List Effect :=
  match env.balanceOf with
  | .error _ => (.ok "0", [.logError "Error getting ERC20 balance"])
  | .ok bal =>
    match env.decimals with
    | .error _ => (.ok "0", [.logError "Error getting ERC20 balance"])
    | .ok d => (.ok (ethersFormatUnits bal d), [])

/-- Oracle for getSolanaBalance: the PublicKey parse of the argument and
the balance query. -/
structure SolBalEnv where
  parseKey : Except JsErr Unit
  getBalance : Except JsErr Nat

/-- getSolanaBalance (src/utils/wallet.ts): lamports divided by
LAMPORTS_PER_SOL, catch any error and return the number 0. -/
def getSolanaBalance (env : SolBalEnv) : Except JsErr Rat × List Effect :=
  match env.parseKey with
  | .error _ => (.ok 0, [.logError "Error getting Solana balance"])
  | .ok _ =>
    match env.getBalance with
    | .error _ => (.ok 0, [.logError "Error getting Solana balance"])
    | .ok bal => (.ok ((bal : Rat) / (LAMPORTS_PER_SOL : Rat)), [])

/-- getMVMTokenBalance (src/utils/wallet.ts): the coin-client balance as
a decimal string, catch any error and return the string 0.  The two
client constructors sit outside the try block in the source but only
store their configuration and do not throw. -/
def getMVMTokenBalance (checkBalance : Except JsErr Nat) : Except JsErr String × List Effect :=
  match checkBalance with
  | .error _ => (.ok "0", [.logError "Error fetching MVM balance"])
  | .ok b => (.ok (toString b), [])

/-- A generic network-failure error value, for concrete evaluations. -/
def sampleErr : JsErr := ⟨some "network request failed", none⟩

/-- An EVM transfer oracle whose every call succeeds, holding a balance
that suffices. -/
def allOkEvmEnv : EvmTransferEnv :=
  ⟨true, .ok (), .ok (), .ok (), .ok (), .ok 18, .ok (), .ok (), .ok (), .ok ()⟩

/-- A Solana transfer oracle whose every call succeeds; the connected
wallet holds 2.5 SOL (2500000000 lamports). -/
def allOkSolEnv : SolTransferEnv :=
  ⟨true, true, .ok (), .ok 2500000000, .ok (), .ok (), .ok (), .ok "sig", .ok ()⟩

/-- An Aptos transfer oracle whose every call succeeds. -/
def allOkMvmEnv : MvmTransferEnv :=
  ⟨true, .ok true, .ok (), .ok "0x1abc", .ok (), .ok "hash", .ok ()⟩

/-- A dispatcher oracle combining the three all-success oracles. -/
def sampleWalletEnv : WalletEnv := ⟨allOkEvmEnv, allOkSolEnv, allOkMvmEnv⟩

/-- An EVM transfer oracle in which the first network-switch request
rejects with code 4902 and every other call succeeds. -/
def switch4902EvmEnv : EvmTransferEnv :=
  ⟨true, .error ⟨none, some 4902⟩, .ok (), .ok (), .ok (), .ok 18, .ok (), .ok (), .ok (), .ok ()⟩

/-- An EVM transfer oracle in which getSigner throws after a successful
network switch. -/
def signerFailEvmEnv : EvmTransferEnv :=
  ⟨true, .ok (), .ok (), .ok (), .error sampleErr, .ok 18, .ok (), .ok (), .ok (), .ok ()⟩

/-- A sample Celo native token as the EVM connector reports it. -/
def sampleCeloToken : Token :=
  ⟨"native", "CELO", "Celo", "1.0", 18, "native", "evm", "", "0"⟩

/-- An EVM fetch oracle whose chain-id request throws. -/
def errEvmFetchEnv : EvmFetchEnv := ⟨.error sampleErr, .error sampleErr⟩

/-- A Solana fetch oracle whose balance query throws. -/
def errSvmFetchEnv : SvmFetchEnv := ⟨.ok (), .error sampleErr⟩

/-- An Aptos fetch oracle whose resource enumeration throws. -/
def errMvmFetchEnv : MvmFetchEnv := ⟨.error sampleErr, fun _ => .ok ⟨none, none, none⟩⟩

/-- A coin-store resource whose coin type has no on-chain metadata. -/
def wStoreA : Resource := ⟨"0x1::coin::CoinStore<0x2::bad::Coin>", "100"⟩

/-- A coin-store resource for the native coin with full metadata. -/
def wStoreB : Resource := ⟨"0x1::coin::CoinStore<0x1::aptos_coin::AptosCoin>", "500"⟩

/-- An Aptos fetch oracle with two coin stores, the first of which has a
failing metadata lookup. -/
def wMvmFetchEnv : MvmFetchEnv :=
  ⟨.ok [wStoreA, wStoreB],
   fun tag => if tag = "0x2::bad::Coin" then .error sampleErr
              else .ok ⟨some "APT", some "Aptos Coin", some 8⟩⟩

/-- Claim C3: for every call handleSetTokenBalances(tokens, c) and every
prior aggregate list, every token in the prior list whose chain tag
differs from c is preserved in the resulting list; merging one chain's
update never drops tokens belonging to another already-connected
chain. -/
theorem handleSetTokenBalances_preserves_other_chains
    (prev tokens : List Token) (chain : String) (t : Token)
    (ht : t ∈ prev) (hc : t.chain ≠ chain) :
    t ∈ handleSetTokenBalances prev tokens chain := by
  unfold handleSetTokenBalances
  exact List.mem_append_left _ (List.mem_filter.mpr ⟨ht, by simp [hc]⟩)

/-- Witness for C3 at a concrete input: an svm token in the prior list
survives an evm-chain update. -/
theorem handleSetTokenBalances_preserves_other_chains_witness :
    sampleSvmToken ∈ [sampleSvmToken] ∧ sampleSvmToken.chain ≠ "evm" ∧
    sampleSvmToken ∈ handleSetTokenBalances [sampleSvmToken] [] "evm" :=
  ⟨by decide, by decide,
    handleSetTokenBalances_preserves_other_chains [sampleSvmToken] [] "evm"
      sampleSvmToken (by decide) (by decide)⟩

/-- An Except whose exceptErr test is true is an error value. -/
theorem exceptErr_spec {ε α : Type} (x : Except ε α) (h : exceptErr x = true) :
    ∃ e, x = .error e := by
  cases x with
  | ok a => simp [exceptErr] at h
  | error e => exact ⟨e, rfl⟩

/-- The outer catch of transferERC20 converts an uncaught error of the
try block into false plus the failure toast. -/
theorem transferERC20_catch (env : EvmTransferEnv) (a b c : String) (e : JsErr)
    (fx : List Effect) (h : transferERC20Try env a b c = (.error e, fx)) :
    transferERC20 env a b c = (.ok false, fx ++ [.toast (failToast e)]) := by
  unfold transferERC20
  rw [h]

/-- transferERC20 never surfaces an uncaught error. -/
theorem transferERC20_ok (env : EvmTransferEnv) (a b c : String) :
    exceptOk (transferERC20 env a b c).1 = true := by
  unfold transferERC20
  rcases h : transferERC20Try env a b c with ⟨r, fx⟩
  cases r <;> simp [exceptOk]

/-- The outer catch of transferSOL converts an uncaught error of the
try block into false plus the failure toast. -/
theorem transferSOL_catch (env : SolTransferEnv) (b c : String) (e : JsErr)
    (fx : List Effect) (h : transferSOLTry env b c = (.error e, fx)) :
    transferSOL env b c = (.ok false, fx ++ [.toast (failToast e)]) := by
  unfold transferSOL
  rw [h]

/-- transferSOL never surfaces an uncaught error. -/
theorem transferSOL_ok (env : SolTransferEnv) (b c : String) :
    exceptOk (transferSOL env b c).1 = true := by
  unfold transferSOL
  rcases h : transferSOLTry env b c with ⟨r, fx⟩
  cases r <;> simp [exceptOk]

/-- The outer catch of transferMVMToken converts an uncaught error of
the try block into false plus the failure toast. -/
theorem transferMVMToken_catch (env : MvmTransferEnv) (t : Token) (b c : String)
    (e : JsErr) (fx : List Effect) (h : transferMVMTokenTry env t b c = (.error e, fx)) :
    transferMVMToken env t b c = (.ok false, fx ++ [.toast (failToast e)]) := by
  unfold transferMVMToken
  rw [h]

/-- transferMVMToken never surfaces an uncaught error. -/
theorem transferMVMToken_ok (env : MvmTransferEnv) (t : Token) (b c : String) :
    exceptOk (transferMVMToken env t b c).1 = true := by
  unfold transferMVMToken
  rcases h : transferMVMTokenTry env t b c with ⟨r, fx⟩
  cases r <;> simp [exceptOk]

/-- transferTokens never surfaces an uncaught error. -/
theorem transferTokens_ok (env : WalletEnv) (p : TransferParams) :
    exceptOk (transferTokens env p).1 = true := by
  unfold transferTokens
  by_cases h1 : p.token.chain = "evm"
  · rw [if_pos h1]
    exact transferERC20_ok env.evm _ p.toAddress p.amount
  · rw [if_neg h1]
    by_cases h2 : p.token.chain = "svm"
    · rw [if_pos h2]
      exact transferSOL_ok env.sol p.toAddress p.amount
    · rw [if_neg h2]
      by_cases h3 : p.token.chain = "mvm"
      · rw [if_pos h3]
        exact transferMVMToken_ok env.mvm p.token p.toAddress p.amount
      · rw [if_neg h3]
        rfl

/-- Claim C1: for every TransferParams whose token chain is not evm, svm
or mvm, transferTokens returns false, produces the Unsupported chain
failure notification, and performs no chain SDK call (none of the three
transfer routines runs, so the effect trace holds only the toast). -/
theorem transferTokens_unsupported_chain (env : WalletEnv) (p : TransferParams)
    (h1 : p.token.chain ≠ "evm") (h2 : p.token.chain ≠ "svm") (h3 : p.token.chain ≠ "mvm") :
    transferTokens env p = (.ok false, [.toast ⟨"Error", "Unsupported chain", true⟩]) ∧
    ∀ n args, Effect.sdkCall n args ∉ (transferTokens env p).2 := by
  have he : transferTokens env p = (.ok false, [.toast ⟨"Error", "Unsupported chain", true⟩]) := by
    unfold transferTokens
    rw [if_neg h1, if_neg h2, if_neg h3]
  refine ⟨he, ?_⟩
  intro n args
  rw [he]
  simp

/-- Witness for C1: a token tagged ethereum (the EVM fetcher error
marker) is dispatched to the failure branch. -/
theorem transferTokens_unsupported_chain_witness :
    evmFetchErrorToken.chain ≠ "evm" ∧ evmFetchErrorToken.chain ≠ "svm" ∧
    evmFetchErrorToken.chain ≠ "mvm" ∧
    transferTokens sampleWalletEnv ⟨evmFetchErrorToken, "0xdst", "1"⟩ =
      (.ok false, [.toast ⟨"Error", "Unsupported chain", true⟩]) :=
  ⟨by decide, by decide, by decide,
   (transferTokens_unsupported_chain sampleWalletEnv ⟨evmFetchErrorToken, "0xdst", "1"⟩
     (by decide) (by decide) (by decide)).1⟩

/-- Claim C2 (code-bug evidence): the EVM connector error-marker token
carries the chain tag ethereum while the connector registers its
updates under the tag evm; after a failed fetch delivers it, a later
evm update does not remove it from the aggregate list, so a token
previously reported by that same connector remains after the update. -/
theorem evm_error_token_survives_merge :
    (evmFetchTokenBalances false errEvmFetchEnv).1 = some [evmFetchErrorToken] ∧
    evmFetchErrorToken ∈ handleSetTokenBalances [evmFetchErrorToken] [sampleCeloToken] "evm" ∧
    evmFetchErrorToken.chain = "ethereum" ∧ evmFetchErrorToken.chain ≠ "evm" :=
  ⟨rfl, by decide, rfl, by decide⟩

/-- Claim C4: for each of the three balance fetchers, when the main RPC
or enumeration call throws, the fetcher delivers exactly one synthetic
token with symbol ERR and balance 0 (neither an empty list nor a
propagated exception). -/
theorem fetchers_total_failure_marker (e1 : EvmFetchEnv) (e2 : SvmFetchEnv) (e3 : MvmFetchEnv)
    (h1 : exceptErr e1.ethChainId = true ∨ exceptErr e1.getBalance = true)
    (h2 : exceptErr e2.parseKey = true ∨ exceptErr e2.getBalance = true)
    (h3 : exceptErr e3.getAccountResources = true) :
    (evmFetchTokenBalances false e1).1 = some [evmFetchErrorToken] ∧
    (svmFetchTokenBalances false e2).1 = some [svmFetchErrorToken] ∧
    (mvmFetchTokenBalances false e3).1 = some [mvmFetchErrorToken] ∧
    evmFetchErrorToken.symbol = "ERR" ∧ evmFetchErrorToken.balance = "0" ∧
    svmFetchErrorToken.symbol = "ERR" ∧ svmFetchErrorToken.balance = "0" ∧
    mvmFetchErrorToken.symbol = "ERR" ∧ mvmFetchErrorToken.balance = "0" := by
  refine ⟨?_, ?_, ?_, rfl, rfl, rfl, rfl, rfl, rfl⟩
  · rcases h1 with h | h
    · obtain ⟨e, he⟩ := exceptErr_spec _ h
      simp [evmFetchTokenBalances, he]
    · obtain ⟨e, he⟩ := exceptErr_spec _ h
      cases hc : e1.ethChainId with
      | error ex => simp [evmFetchTokenBalances, hc]
      | ok v => simp [evmFetchTokenBalances, hc, he]
  · rcases h2 with h | h
    · obtain ⟨e, he⟩ := exceptErr_spec _ h
      simp [svmFetchTokenBalances, he]
    · obtain ⟨e, he⟩ := exceptErr_spec _ h
      cases hc : e2.parseKey with
      | error ex => simp [svmFetchTokenBalances, hc]
      | ok v => simp [svmFetchTokenBalances, hc, he]
  · obtain ⟨e, he⟩ := exceptErr_spec _ h3
    simp [mvmFetchTokenBalances, he]

/-- Witness for C4 at concrete failing oracles. -/
theorem fetchers_total_failure_marker_witness :
    exceptErr errEvmFetchEnv.ethChainId = true ∧
    exceptErr errSvmFetchEnv.getBalance = true ∧
    exceptErr errMvmFetchEnv.getAccountResources = true ∧
    (evmFetchTokenBalances false errEvmFetchEnv).1 = some [evmFetchErrorToken] ∧
    (svmFetchTokenBalances false errSvmFetchEnv).1 = some [svmFetchErrorToken] ∧
    (mvmFetchTokenBalances false errMvmFetchEnv).1 = some [mvmFetchErrorToken] :=
  ⟨rfl, rfl, rfl,
   (fetchers_total_failure_marker errEvmFetchEnv errSvmFetchEnv errMvmFetchEnv
     (Or.inl rfl) (Or.inr rfl) rfl).1,
   (fetchers_total_failure_marker errEvmFetchEnv errSvmFetchEnv errMvmFetchEnv
     (Or.inl rfl) (Or.inr rfl) rfl).2.1,
   (fetchers_total_failure_marker errEvmFetchEnv errSvmFetchEnv errMvmFetchEnv
     (Or.inl rfl) (Or.inr rfl) rfl).2.2.1⟩

/-- Claim C5 counterexample: a balance-fetch failure that does produce a
user notification: when the account lookup of getAllMVMTokenBalances
throws, the Account Not Found toast is shown. -/
theorem mvm_account_failure_notifies :
    Effect.toast accountNotFoundToast ∈ (getAllMVMTokenBalances ⟨.error sampleErr, .ok []⟩).2 := by
  decide

/-- Claim C5 (amended): the three connector fetchers never notify (their
failures are only logged, with the synthetic marker substituted), but
getAllMVMTokenBalances notifies when its account lookup fails,
substituting the empty list rather than a marker. -/
theorem balance_fetch_notification_policy (f1 f2 f3 : Bool)
    (e1 : EvmFetchEnv) (e2 : SvmFetchEnv) (e3 : MvmFetchEnv) (e4 : MvmAllEnv)
    (h4 : exceptErr e4.getAccount = true) :
    (∀ t, Effect.toast t ∉ (evmFetchTokenBalances f1 e1).2) ∧
    (∀ t, Effect.toast t ∉ (svmFetchTokenBalances f2 e2).2) ∧
    (∀ t, Effect.toast t ∉ (mvmFetchTokenBalances f3 e3).2) ∧
    getAllMVMTokenBalances e4 = (some [], [.toast accountNotFoundToast]) := by
  obtain ⟨c1, b1⟩ := e1
  obtain ⟨p2, b2⟩ := e2
  obtain ⟨r3, g3⟩ := e3
  refine ⟨?_, ?_, ?_, ?_⟩
  · intro t
    cases f1 <;> cases c1 <;> cases b1 <;> simp [evmFetchTokenBalances]
  · intro t
    cases f2 <;> cases p2 <;> cases b2 <;> simp [svmFetchTokenBalances]
  · intro t
    cases f3 <;> cases r3 <;> simp [mvmFetchTokenBalances]
  · obtain ⟨e, he⟩ := exceptErr_spec _ h4
    simp [getAllMVMTokenBalances, he]

/-- Witness for C5 amended at a concrete failing account lookup. -/
theorem balance_fetch_notification_policy_witness :
    exceptErr (MvmAllEnv.mk (.error sampleErr) (.ok [])).getAccount = true ∧
    getAllMVMTokenBalances ⟨.error sampleErr, .ok []⟩ =
      (some [], [.toast accountNotFoundToast]) :=
  ⟨rfl,
   (balance_fetch_notification_policy false false false errEvmFetchEnv errSvmFetchEnv
     errMvmFetchEnv ⟨.error sampleErr, .ok []⟩ rfl).2.2.2⟩

/-- Claim C6: in the Aptos fetch, a coin store whose metadata lookup
throws is still included in the delivered list, with symbol UNKNOWN and
decimals 8, and the failure does not abort the other coin stores: the
output holds one token per coin store. -/
theorem mvm_metadata_fallback (env : MvmFetchEnv) (rs : List Resource)
    (hres : env.getAccountResources = .ok rs)
    (i : Nat) (hi : i < (coinStoresOf rs).length)
    (hmeta : exceptErr (env.getCoinInfo (extractTypeTag ((coinStoresOf rs).get ⟨i, hi⟩).type)) = true) :
    ∃ out, (mvmFetchTokenBalances false env).1 = some out ∧
      out.length = (coinStoresOf rs).length ∧
      ∃ hj : i < out.length,
        (out.get ⟨i, hj⟩).symbol = "UNKNOWN" ∧ (out.get ⟨i, hj⟩).decimals = 8 := by
  obtain ⟨e, he⟩ := exceptErr_spec _ hmeta
  refine ⟨(coinStoresOf rs).map (mvmTokenOf env), by simp [mvmFetchTokenBalances, hres], by simp, ?_⟩
  have hj : i < ((coinStoresOf rs).map (mvmTokenOf env)).length := by simp [hi]
  refine ⟨hj, ?_, ?_⟩ <;>
  · simp only [List.get_eq_getElem] at he ⊢
    rw [List.getElem_map]
    simp [mvmTokenOf, he]

/-- Witness for C6: two coin stores, the first with a failing metadata
lookup, both still delivered. -/
theorem mvm_metadata_fallback_witness :
    wMvmFetchEnv.getAccountResources = .ok [wStoreA, wStoreB] ∧
    (∃ out, (mvmFetchTokenBalances false wMvmFetchEnv).1 = some out ∧
      out.length = (coinStoresOf [wStoreA, wStoreB]).length ∧
      ∃ hj : 0 < out.length,
        (out.get ⟨0, hj⟩).symbol = "UNKNOWN" ∧ (out.get ⟨0, hj⟩).decimals = 8) :=
  ⟨rfl, mvm_metadata_fallback wMvmFetchEnv [wStoreA, wStoreB] rfl 0 (by decide) (by decide)⟩

/-- Claim C7: Solana transfer from a connected wallet holding 2.5 SOL
(2500000000 lamports) of amount 3.0: the local balance check fails, the
routine returns false with the insufficient-balance toast, and no
transfer instruction is constructed and nothing is signed. -/
theorem transferSOL_insufficient_balance (env : SolTransferEnv) (toAddress : String)
    (h1 : env.hasSolana = true) (h2 : env.solanaConnected = true)
    (h3 : env.getBalance = .ok 2500000000) :
    transferSOL env toAddress "3.0" =
      (.ok false, [.sdkCall "getBalance" [],
        .toast ⟨"Insufficient Balance", "You need at least 3.0 SOL.", true⟩]) ∧
    (∀ args, Effect.sdkCall "SystemProgram.transfer" args ∉ (transferSOL env toAddress "3.0").2) ∧
    (∀ args, Effect.sdkCall "signTransaction" args ∉ (transferSOL env toAddress "3.0").2) := by
  have he : transferSOL env toAddress "3.0" =
      (.ok false, [.sdkCall "getBalance" [],
        .toast ⟨"Insufficient Balance", "You need at least 3.0 SOL.", true⟩]) := by
    unfold transferSOL transferSOLTry
    rw [h1, h2, h3]
    rfl
  refine ⟨he, ?_, ?_⟩ <;> (intro args; rw [he]; simp)

/-- Witness for C7 at a concrete connected oracle holding 2.5 SOL. -/
theorem transferSOL_insufficient_balance_witness :
    allOkSolEnv.hasSolana = true ∧ allOkSolEnv.solanaConnected = true ∧
    allOkSolEnv.getBalance = .ok 2500000000 ∧
    transferSOL allOkSolEnv "9dstAddr" "3.0" =
      (.ok false, [.sdkCall "getBalance" [],
        .toast ⟨"Insufficient Balance", "You need at least 3.0 SOL.", true⟩]) :=
  ⟨rfl, rfl, rfl,
   (transferSOL_insufficient_balance allOkSolEnv "9dstAddr" rfl rfl rfl).1⟩

/-- Claim C8 counterexample: when the first network-switch extension
call rejects with code 4902 and the add-network recovery succeeds,
transferERC20 returns true even though an extension call raised an
error, refuting that every SDK or extension error makes the routine
return false. -/
theorem erc20_recovered_switch_error_returns_true :
    exceptErr switch4902EvmEnv.switchChain1 = true ∧
    (transferERC20 switch4902EvmEnv "native" "0xabcdef012345" "1.0").1 = .ok true :=
  ⟨rfl, rfl⟩

/-- Claim C8 (amended): every transfer routine is total at its public
interface: for every outcome of the SDK and extension calls the result
is a boolean and no error escapes to the caller; an error the body does
not handle is caught at the top level and converted to false with the
failure notification (while an error recovered inside the body, such as
the 4902 network-switch recovery, can still end in true). -/
theorem transfer_routines_total (eEnv : EvmTransferEnv) (sEnv : SolTransferEnv)
    (mEnv : MvmTransferEnv) (wEnv : WalletEnv) (t : Token) (p : TransferParams)
    (a b c : String) :
    exceptOk (transferERC20 eEnv a b c).1 = true ∧
    exceptOk (transferSOL sEnv b c).1 = true ∧
    exceptOk (transferMVMToken mEnv t b c).1 = true ∧
    exceptOk (transferTokens wEnv p).1 = true ∧
    (∀ e fx, transferERC20Try eEnv a b c = (.error e, fx) →
      transferERC20 eEnv a b c = (.ok false, fx ++ [.toast (failToast e)])) ∧
    (∀ e fx, transferSOLTry sEnv b c = (.error e, fx) →
      transferSOL sEnv b c = (.ok false, fx ++ [.toast (failToast e)])) ∧
    (∀ e fx, transferMVMTokenTry mEnv t b c = (.error e, fx) →
      transferMVMToken mEnv t b c = (.ok false, fx ++ [.toast (failToast e)])) :=
  ⟨transferERC20_ok eEnv a b c, transferSOL_ok sEnv b c, transferMVMToken_ok mEnv t b c,
   transferTokens_ok wEnv p,
   fun e fx h => transferERC20_catch eEnv a b c e fx h,
   fun e fx h => transferSOL_catch sEnv b c e fx h,
   fun e fx h => transferMVMToken_catch mEnv t b c e fx h⟩

/-- Witness for C8 amended: the dispatcher is total on a concrete
params value, and a concrete getSigner failure is converted to false
with the failure toast. -/
theorem transfer_routines_total_witness :
    exceptOk (transferTokens sampleWalletEnv ⟨sampleCeloToken, "0xdst", "1.0"⟩).1 = true ∧
    transferERC20 signerFailEvmEnv "native" "0xdst" "1.0" =
      (.ok false, [.sdkCall "wallet_switchEthereumChain" [], .sdkCall "getSigner" []] ++
        [.toast (failToast sampleErr)]) :=
  ⟨(transfer_routines_total signerFailEvmEnv allOkSolEnv allOkMvmEnv sampleWalletEnv
      sampleCeloToken ⟨sampleCeloToken, "0xdst", "1.0"⟩ "native" "0xdst" "1.0").2.2.2.1,
   (transfer_routines_total signerFailEvmEnv allOkSolEnv allOkMvmEnv sampleWalletEnv
      sampleCeloToken ⟨sampleCeloToken, "0xdst", "1.0"⟩ "native" "0xdst" "1.0").2.2.2.2.1
     sampleErr [.sdkCall "wallet_switchEthereumChain" [], .sdkCall "getSigner" []] rfl⟩

/-- Claim C9: the four low-level balance helpers never throw; on any
error of the underlying call each returns the zero balance (string 0,
or the number 0 for the Solana helper). -/
theorem balance_helpers_never_throw (g1 : Except JsErr Nat) (e2 : Erc20BalEnv)
    (e3 : SolBalEnv) (g4 : Except JsErr Nat) :
    exceptOk (getEVMBalance g1).1 = true ∧
    exceptOk (getERC20Balance e2).1 = true ∧
    exceptOk (getSolanaBalance e3).1 = true ∧
    exceptOk (getMVMTokenBalance g4).1 = true ∧
    (exceptErr g1 = true → (getEVMBalance g1).1 = .ok "0") ∧
    ((exceptErr e2.balanceOf = true ∨ exceptErr e2.decimals = true) →
      (getERC20Balance e2).1 = .ok "0") ∧
    ((exceptErr e3.parseKey = true ∨ exceptErr e3.getBalance = true) →
      (getSolanaBalance e3).1 = .ok 0) ∧
    (exceptErr g4 = true → (getMVMTokenBalance g4).1 = .ok "0") := by
  obtain ⟨b2, d2⟩ := e2
  obtain ⟨p3, b3⟩ := e3
  refine ⟨?_, ?_, ?_, ?_, ?_, ?_, ?_, ?_⟩
  · cases g1 <;> simp [getEVMBalance, exceptOk]
  · cases b2 <;> cases d2 <;> simp [getERC20Balance, exceptOk]
  · cases p3 <;> cases b3 <;> simp [getSolanaBalance, exceptOk]
  · cases g4 <;> simp [getMVMTokenBalance, exceptOk]
  · intro h
    cases g1 <;> simp_all [getEVMBalance, exceptErr]
  · intro h
    cases b2 <;> cases d2 <;> simp_all [getERC20Balance, exceptErr]
  · intro h
    cases p3 <;> cases b3 <;> simp_all [getSolanaBalance, exceptErr]
  · intro h
    cases g4 <;> simp_all [getMVMTokenBalance, exceptErr]

/-- Witness for C9 at concrete failing calls. -/
theorem balance_helpers_never_throw_witness :
    exceptErr (Except.error sampleErr : Except JsErr Nat) = true ∧
    (getEVMBalance (.error sampleErr)).1 = .ok "0" ∧
    (getERC20Balance ⟨.error sampleErr, .error sampleErr⟩).1 = .ok "0" ∧
    (getSolanaBalance ⟨.ok (), .error sampleErr⟩).1 = .ok 0 ∧
    (getMVMTokenBalance (.error sampleErr)).1 = .ok "0" :=
  ⟨rfl,
   (balance_helpers_never_throw (.error sampleErr) ⟨.error sampleErr, .error sampleErr⟩
     ⟨.ok (), .error sampleErr⟩ (.error sampleErr)).2.2.2.2.1 rfl,
   (balance_helpers_never_throw (.error sampleErr) ⟨.error sampleErr, .error sampleErr⟩
     ⟨.ok (), .error sampleErr⟩ (.error sampleErr)).2.2.2.2.2.1 (Or.inl rfl),
   (balance_helpers_never_throw (.error sampleErr) ⟨.error sampleErr, .error sampleErr⟩
     ⟨.ok (), .error sampleErr⟩ (.error sampleErr)).2.2.2.2.2.2.1 (Or.inr rfl),
   (balance_helpers_never_throw (.error sampleErr) ⟨.error sampleErr, .error sampleErr⟩
     ⟨.ok (), .error sampleErr⟩ (.error sampleErr)).2.2.2.2.2.2.2 rfl⟩

/-- Claim C10: getAllMVMTokenBalances never returns a non-empty token
list: an account-lookup failure toasts and returns the empty list, a
resource-fetch failure returns the empty list after logging, and the
success path discards the fetched resources and falls off the end of
the function, returning undefined (none). -/
theorem getAllMVMTokenBalances_spec (env : MvmAllEnv) :
    (∀ l, (getAllMVMTokenBalances env).1 = some l → l = []) ∧
    (∀ e, env.getAccount = .error e →
      getAllMVMTokenBalances env = (some [], [.toast accountNotFoundToast])) ∧
    (∀ u e, env.getAccount = .ok u → env.getAccountResources = .error e →
      getAllMVMTokenBalances env = (some [], [.logError "Error fetching MVM token balances"])) ∧
    (∀ u rs, env.getAccount = .ok u → env.getAccountResources = .ok rs →
      getAllMVMTokenBalances env = (none, [])) := by
  obtain ⟨a, r⟩ := env
  refine ⟨?_, ?_, ?_, ?_⟩ <;> cases a <;> cases r <;> simp_all [getAllMVMTokenBalances]

/-- Witness for C10 at a concrete failing account lookup. -/
theorem getAllMVMTokenBalances_spec_witness :
    (MvmAllEnv.mk (.error sampleErr) (.ok [])).getAccount = .error sampleErr ∧
    getAllMVMTokenBalances ⟨.error sampleErr, .ok []⟩ =
      (some [], [.toast accountNotFoundToast]) ∧
    ([] : List Token) = [] :=
  ⟨rfl,
   (getAllMVMTokenBalances_spec ⟨.error sampleErr, .ok []⟩).2.1 sampleErr rfl,
   (getAllMVMTokenBalances_spec ⟨.error sampleErr, .ok []⟩).1 [] rfl⟩
